import Mathlib

/-!
Verification development for the Remote Query Gateway of the AzureBot
repository.  The definitions below are a shallow embedding of the Python
source: `AzureFunctionAuth` from `src/admin_dashboard.py` (the auth
negotiator) and `SQLConsole` from `src/sql_console.py` (the gateway
facade, command router, session store and metadata calls).  Remote HTTP
endpoints, the natural-language translator and the bot executor are
modelled as explicit environment parameters, so that each handler is a
pure function of its inputs and of the environment's responses.
-/

namespace AzureBot

/-! ## Auth negotiator: `AzureFunctionAuth` (src/admin_dashboard.py, lines 101-222) -/

/-- Decides whether `needle` occurs as a contiguous run inside `hay`
(the embedding of Python's `in` operator on strings, applied to the
character lists of the two strings). -/
def containsChars (needle : List Char) : List Char → Bool
  | [] => needle.isEmpty
  | c :: cs => needle.isPrefixOf (c :: cs) || containsChars needle cs

/-- Lower-cases a string character by character, the embedding of
Python's `str.lower()`. -/
def strLower (s : String) : String :=
  String.mk (s.data.map Char.toLower)

/-- The first `n` characters of a string, the embedding of Python's
slice `s[:n]` (Python slices count code points, as `List.take` on the
character list does). -/
def strTake (s : String) (n : Nat) : String :=
  String.mk (s.data.take n)

/-- Embedding of the Python test `'code=' in self.function_url.lower()`
(src/admin_dashboard.py line 114). -/
def hasEmbeddedCode (url : String) : Bool :=
  containsChars "code=".data (strLower url).data

/-- State of an `AzureFunctionAuth` instance: the configured function URL,
the configured function key (empty string when unset, mirroring the
`or ""` environment-variable fallback), and the `auth_method` attribute
written on a successful probe (src/admin_dashboard.py lines 104-107). -/
structure AuthState where
  function_url : String
  function_key : String
  auth_method : Option String
deriving Repr, DecidableEq

/-- Embedding of `AzureFunctionAuth._get_auth_methods`
(src/admin_dashboard.py lines 109-128): `url_embedded` when the URL
carries an embedded `code=` parameter, `header_key` and `url_key` when a
function key is configured, and `managed_identity` always, in exactly
this order. -/
def get_auth_methods (a : AuthState) : List String :=
  (if hasEmbeddedCode a.function_url then ["url_embedded"] else []) ++
  (if a.function_key ≠ "" then ["header_key"] else []) ++
  (if a.function_key ≠ "" then ["url_key"] else []) ++
  ["managed_identity"]

/-- The prefix of `cs` strictly before the first `?` character; used for
Python's `url.split('?')[0]`. -/
def beforeQuery : List Char → List Char
  | [] => []
  | c :: cs => if c = '?' then [] else c :: beforeQuery cs

/-- Embedding of `self.function_url.split('?')[0] if '?' in
self.function_url else self.function_url` (src/admin_dashboard.py line
132); both branches equal the prefix before the first `?`. -/
def base_url_of (url : String) : String :=
  String.mk (beforeQuery url.data)

/-- An outgoing probe request: the URL it is posted to and its headers.
The JSON payload is the same for every candidate and is omitted. -/
structure PreparedRequest where
  url : String
  headers : List (String × String)
deriving Repr, DecidableEq

/-- Embedding of `AzureFunctionAuth._prepare_request`
(src/admin_dashboard.py lines 130-147).  `none` models the `ValueError`
raised for an unknown method name. -/
def prepare_request (a : AuthState) (method : String) : Option PreparedRequest :=
  let base_url := base_url_of a.function_url
  if method = "url_embedded" then
    some ⟨a.function_url, [("Content-Type", "application/json")]⟩
  else if method = "managed_identity" then
    some ⟨base_url, [("Content-Type", "application/json")]⟩
  else if method = "header_key" then
    some ⟨base_url, [("Content-Type", "application/json"), ("x-functions-key", a.function_key)]⟩
  else if method = "url_key" then
    some ⟨base_url ++ "?code=" ++ a.function_key, [("Content-Type", "application/json")]⟩
  else
    none

/-- One remote endpoint reaction to a probe: an HTTP response with a
status, a flag saying whether the body parses as JSON, and the body text;
or a transport-level exception (timeout, connection error). -/
inductive HttpOutcome where
  | resp (status : Nat) (jsonOk : Bool) (body : String)
  | exn (msg : String)
deriving Repr, DecidableEq

/-- Outcome of the candidate loop inside `call_function`: success with
the winning method, parsed data and the URL used; a hard failure on a
status other than 200/401; or exhaustion of all candidates carrying the
accumulated `last_error`. -/
inductive LoopOutcome where
  | ok (method : String) (data : String) (url : String)
  | hardFail (method : String) (status : Nat) (body : String)
  | exhausted (last_error : Option String)
deriving Repr, DecidableEq

/-- Embedding of the `for method in auth_methods` loop of
`AzureFunctionAuth.call_function` (src/admin_dashboard.py lines
161-211).  Returns the list of methods actually probed together with the
loop outcome.  A 200 with a parseable body returns immediately; a 200
whose body fails to parse raises inside the `try`, is caught, and the
loop continues; a 401 records `last_error` and continues; any other
status returns the hard-failure dictionary at once; a transport
exception is caught and the loop continues. -/
def call_loop (a : AuthState) (env : PreparedRequest → HttpOutcome) :
    List String → Option String → List String × LoopOutcome
  | [], lastErr => ([], .exhausted lastErr)
  | m :: rest, _lastErr =>
    match prepare_request a m with
    | none =>
      let e := some ("Error with " ++ m ++ ": Unknown authentication method: " ++ m)
      let r := call_loop a env rest e
      (m :: r.1, r.2)
    | some pr =>
      match env pr with
      | .exn msg =>
        let e := some ("Error with " ++ m ++ ": " ++ msg)
        let r := call_loop a env rest e
        (m :: r.1, r.2)
      | .resp status jsonOk body =>
        if status = 200 then
          if jsonOk then ([m], .ok m body pr.url)
          else
            let e := some ("Error with " ++ m ++ ": malformed JSON body")
            let r := call_loop a env rest e
            (m :: r.1, r.2)
        else if status = 401 then
          let e := some ("Authentication failed with " ++ m ++ ": " ++ strTake body 100)
          let r := call_loop a env rest e
          (m :: r.1, r.2)
        else
          ([m], .hardFail m status body)

/-- Embedding of the masked `url_used` detail reported on success
(src/admin_dashboard.py line 186). -/
def url_used_mask (url : String) : String :=
  if containsChars "?".data url.data then base_url_of url ++ "?..." else url

/-- Result dictionary of `AzureFunctionAuth.call_function`: the missing
URL early return, the success dictionary, the hard-failure dictionary
for a status other than 200/401, and the aggregate all-methods-failed
dictionary with the tried-method list and the last error only. -/
inductive CallResult where
  | noUrl
  | success (data : String) (auth_method : String) (url_used : String)
  | functionError (status : Nat) (response : String) (auth_method : String)
  | allFailed (tried_methods : List String) (last_error : Option String)
deriving Repr, DecidableEq

/-- Embedding of `AzureFunctionAuth.call_function`
(src/admin_dashboard.py lines 149-222).  Returns the post-call state
(the `auth_method` attribute is assigned only on success), the list of
candidates actually probed, and the result dictionary.  The candidate
list is recomputed by `get_auth_methods` on every call; the stored
`auth_method` is never consulted. -/
def call_function (a : AuthState) (env : PreparedRequest → HttpOutcome) :
    AuthState × List String × CallResult :=
  if a.function_url = "" then (a, [], .noUrl)
  else
    let methods := get_auth_methods a
    match call_loop a env methods none with
    | (trace, .ok m data url) =>
      ({ a with auth_method := some m }, trace, .success data m (url_used_mask url))
    | (trace, .hardFail m s body) => (a, trace, .functionError s (strTake body 200) m)
    | (trace, .exhausted le) => (a, trace, .allFailed methods le)

/-- The `last_error` string that the loop records for candidate `m`
when `m` does not end the negotiation (transport exception, malformed
200 body, or 401). -/
def failMsg (a : AuthState) (env : PreparedRequest → HttpOutcome) (m : String) :
    Option String :=
  match prepare_request a m with
  | none => some ("Error with " ++ m ++ ": Unknown authentication method: " ++ m)
  | some pr =>
    match env pr with
    | .exn msg => some ("Error with " ++ m ++ ": " ++ msg)
    | .resp status jsonOk body =>
      if status = 200 then
        if jsonOk then none
        else some ("Error with " ++ m ++ ": malformed JSON body")
      else if status = 401 then
        some ("Authentication failed with " ++ m ++ ": " ++ strTake body 100)
      else none

/-- A candidate whose probe comes back as HTTP 200 with a parseable
body: the succeeding case of the loop. -/
def successProbe (a : AuthState) (env : PreparedRequest → HttpOutcome) (m : String) :
    Bool :=
  match prepare_request a m with
  | none => false
  | some pr =>
    match env pr with
    | .resp 200 true _ => true
    | _ => false

/-! ## Gateway facade: `SQLConsole` (src/sql_console.py, lines 14-1303) -/

/-- Modelled from the spec: `ConversationContext` comes from the module
`azure_openai_sql_translator`, which is not under `src/`.  Per the spec
the dialogue context is the ordered sequence of prior
(utterance, resulting-query) pairs together with the session's current
database; `currentDatabase` is unset until a database is selected. -/
structure ConversationContext where
  messages : List (String × String)
  current_database : Option String
deriving Repr, DecidableEq

/-- Modelled from the spec: the constructor call
`ConversationContext(messages=[])` used by `SQLConsole` builds a context
with no prior messages and the current database unset. -/
def ConversationContext.fresh : ConversationContext :=
  ⟨[], none⟩

/-- The translator output consumed by `SQLConsole.handle_message`: a SQL
statement (empty when the translator found no SQL intent), the target
database and an explanation.  The confidence score carried by the Python
object is a float never read by the console handlers and is omitted. -/
structure SQLQuery where
  query : String
  database : String
  explanation : String
deriving Repr, DecidableEq

/-- One result row: a column-name–value association list, the embedding
of a JSON row object. -/
def Row : Type := List (String × String)

instance : DecidableEq Row := by
  unfold Row; infer_instance

instance : Repr Row := by
  unfold Row; infer_instance

/-- The dictionary returned by the bot executor `_execute_sql_query`:
an optional `error` entry, the result rows, the row count, the elapsed
time, and the optional natural-language rendering carried under
`formatted_result` (only its `natural_language` entry is read). -/
structure ExecResult where
  error : Option String
  rows : List Row
  row_count : Nat
  execution_time_ms : Nat
  formatted : Option String
deriving Repr, DecidableEq

/-- Per-session state stored in `SQLConsole.sessions`
(src/sql_console.py lines 1014-1019): the conversation context object
and the session-level `current_database` entry. -/
structure SessionData where
  context : ConversationContext
  current_database : Option String
deriving Repr, DecidableEq

/-- The fields `SQLConsole.handle_message` reads from the request JSON:
`message` (default empty), `database` (optional) and the session id
(default `"default"` applied by the caller). -/
structure MsgRequest where
  message : String
  database : Option String
  session_id : String
deriving Repr, DecidableEq

/-- The JSON payload of the `json_response` values produced by
`SQLConsole.handle_message` and `SQLConsole._handle_command`: the
error-status payload, the plain-text payload, the help payload, the
database-set payload with its `current_database` and `refresh_tables`
extras, and the `sql_result` payload. -/
inductive RespPayload where
  | errorResp (error : String)
  | textResp (content : String)
  | helpResp (content : String)
  | dbSetResp (content : String) (current_database : String)
  | sqlResult (explanation : String) (query : String) (database : String)
      (rows : List Row) (row_count : Nat) (execution_time_ms : Nat)
      (current_database : Option String) (content : Option String)
deriving Repr, DecidableEq

/-- Outcome of the one metadata POST made by
`SQLConsole._call_function_metadata`: an HTTP response whose 200 body
either fails to parse (`malformed`) or parses to a JSON object with or
without a `databases` entry, or a transport exception. -/
inductive MetaOutcome where
  | malformed (status : Nat)
  | json (status : Nat) (databases : Option (List String))
  | exn (msg : String)
deriving Repr, DecidableEq

/-- The collaborators of a `SQLConsole` instance: the optional
natural-language translator (which may raise, modelled with `Except`),
whether a bot is attached, the bot's executor
`bot._execute_sql_query(query, mode)` (which may raise), the token-usage
summary for `/usage` (absent when the translator has no `token_limiter`,
raising when the attribute access fails), the `AZURE_FUNCTION_URL`
environment value, and the metadata endpoint's reaction. -/
structure ConsoleDeps where
  translator : Option (String → ConversationContext → Except String SQLQuery)
  bot : Bool
  bot_execute : SQLQuery → String → Except String ExecResult
  token_usage : Option (Except String String)
  function_url : String
  meta_env : MetaOutcome

/-- Python truthiness of an optional string (`None` and the empty string
are falsy). -/
def optTruthy : Option String → Bool
  | none => false
  | some s => s ≠ ""

/-- Dictionary lookup in the session store (`self.sessions[session_id]`
on a store whose keys are unique). -/
def lookupSession (sid : String) : List (String × SessionData) → Option SessionData
  | [] => none
  | p :: rest => if p.1 = sid then some p.2 else lookupSession sid rest

/-- Dictionary update in the session store: replaces the entry when the
key exists, appends it otherwise (Python dict insertion order). -/
def setSession (sid : String) (sd : SessionData) :
    List (String × SessionData) → List (String × SessionData)
  | [] => [(sid, sd)]
  | p :: rest => if p.1 = sid then (sid, sd) :: rest else p :: setSession sid sd rest

/-- Embedding of Python `str.split()` with no argument: split on runs of
whitespace and drop empty pieces. -/
def splitWs (s : String) : List String :=
  ((s.data.splitOnP Char.isWhitespace).map String.mk).filter (fun p => p ≠ "")

/-- Embedding of the fixed metadata statement built by
`SQLConsole._get_databases` (src/sql_console.py lines 1181-1186). -/
def metadata_query : SQLQuery :=
  { query := "SELECT name FROM sys.databases WHERE state = 0 AND name NOT IN (\x27master\x27, \x27tempdb\x27, \x27model\x27, \x27msdb\x27)"
    database := "master"
    explanation := "Getting list of databases" }

/-- Embedding of the schema statement built by `SQLConsole._get_tables`
(src/sql_console.py lines 1213-1221). -/
def schema_query (database : String) : SQLQuery :=
  { query := "SELECT TABLE_NAME \n                        FROM INFORMATION_SCHEMA.TABLES \n                        WHERE TABLE_TYPE = \x27BASE TABLE\x27 \n                        ORDER BY TABLE_NAME"
    database := database
    explanation := "Getting list of tables" }

/-- Embedding of `SQLConsole._call_function_metadata`
(src/sql_console.py lines 1234-1257).  Returns the `databases` entry of
the returned dictionary (`none` when a 200 body parses to a JSON object
without that entry): an unset URL, a non-200 status, a malformed 200
body and a transport exception all collapse to the same
`some []` as the dictionary literal `\x7b'databases': []\x7d`. -/
def call_function_metadata (function_url : String) (env : MetaOutcome) :
    Option (List String) :=
  if function_url = "" then some []
  else
    match env with
    | .exn _ => some []
    | .malformed status => if status = 200 then some [] else some []
    | .json status dbs => if status = 200 then dbs else some []

/-- Looks up one column of every row, the embedding of the comprehension
`[row[col] for row in rows]`; `none` models the `KeyError` raised when a
row lacks the column. -/
def columnValues (col : String) : List Row → Option (List String)
  | [] => some []
  | row :: rest =>
    match (List.find? (fun p => p.1 = col) row).map (fun p => p.2) with
    | none => none
    | some v => (columnValues col rest).map (fun vs => v :: vs)

/-- Embedding of `SQLConsole._get_databases` (src/sql_console.py lines
1172-1202): without a bot it returns `[]`; an executor exception or a
missing `name` column is caught into `[]`; non-empty rows yield the
names with `master` inserted in front; empty rows fall back to the
metadata endpoint's `databases` entry with default `[]`. -/
def get_databases (deps : ConsoleDeps) : List String :=
  if deps.bot = false then []
  else
    match deps.bot_execute metadata_query "raw" with
    | .error _ => []
    | .ok result =>
      if result.rows ≠ [] then
        match columnValues "name" result.rows with
        | none => []
        | some names => "master" :: names
      else
        (call_function_metadata deps.function_url deps.meta_env).getD []

/-- Embedding of `SQLConsole._get_tables` (src/sql_console.py lines
1204-1232): without a bot it returns `[]`; an executor exception or a
missing `TABLE_NAME` column is caught into `[]`; empty rows yield `[]`. -/
def get_tables (deps : ConsoleDeps) (database : String) : List String :=
  if deps.bot = false then []
  else
    match deps.bot_execute (schema_query database) "raw" with
    | .error _ => []
    | .ok result =>
      if result.rows ≠ [] then
        (columnValues "TABLE_NAME" result.rows).getD []
      else []

/-- Embedding of `SQLConsole._handle_command` (src/sql_console.py lines
1085-1170).  Returns the updated session and the response payload; the
payload is `none` on the `/database` branch when neither the `list` nor
the `set` arm matches, where the Python function falls through and
returns `None`.  A raised exception (only possible on the `/usage`
attribute accesses) is an `Except.error`. -/
def handle_command (deps : ConsoleDeps) (command : String) (session : SessionData) :
    Except String (SessionData × Option RespPayload) :=
  let parts := splitWs command
  let cmd := strLower (parts.headD "")
  if cmd = "/help" then
    .ok (session, some (.helpResp "Help content"))
  else if cmd = "/database" then
    if parts[1]? = some "list" then
      let databases := get_databases deps
      let content := "Available Databases (" ++ toString databases.length ++ "):\n" ++
        String.join (databases.map (fun db => "• " ++ db ++ "\n"))
      .ok (session, some (.textResp content))
    else if parts.length > 2 ∧ parts[1]? = some "set" then
      let db_name := String.intercalate " " (parts.drop 2)
      .ok (⟨{ session.context with current_database := some db_name }, some db_name⟩,
        some (.dbSetResp ("Database set to: " ++ db_name) db_name))
    else
      .ok (session, none)
  else if cmd = "/tables" then
    if optTruthy session.current_database = false then
      .ok (session, some (.textResp "Please select a database first using: /database set <name>"))
    else
      let db := session.current_database.getD ""
      let tables := get_tables deps db
      let content := "Tables in " ++ db ++ " (" ++ toString tables.length ++ "):\n" ++
        String.join (tables.map (fun t => "• " ++ t ++ "\n"))
      .ok (session, some (.textResp content))
  else if cmd = "/usage" then
    match deps.translator, deps.token_usage with
    | some _, some (.ok content) => .ok (session, some (.textResp content))
    | some _, some (.error e) => .error e
    | _, _ => .ok (session, some (.textResp "Usage tracking not available"))
  else if cmd = "/clear" then
    .ok (⟨ConversationContext.fresh, session.current_database⟩,
      some (.textResp "Conversation history cleared."))
  else
    .ok (session, some (.textResp ("Unknown command: " ++ cmd)))

/-- Embedding of `SQLConsole._execute_sql_query` (src/sql_console.py
lines 1259-1268): without a bot it returns the `Bot not available`
error dictionary; an executor exception is caught into an error
dictionary (whose missing entries read as the defaults `[]`/`0`). -/
def exec_wrapper (deps : ConsoleDeps) (q : SQLQuery) : ExecResult :=
  if deps.bot = false then
    { error := some "Bot not available", rows := [], row_count := 0
      execution_time_ms := 0, formatted := none }
  else
    match deps.bot_execute q "full" with
    | .error e =>
      { error := some e, rows := [], row_count := 0
        execution_time_ms := 0, formatted := none }
    | .ok r => r

/-- Embedding of `SQLConsole.handle_message` (src/sql_console.py lines
1005-1083).  Takes the session store and the outcome of parsing the
request JSON; returns the updated store and the response payload.  The
payload is `none` exactly when `_handle_command` returned `None`; every
exception raised inside the `try` body (request parsing, the translator,
`/usage`) is caught into an error payload by the outer handler. -/
def handle_message (deps : ConsoleDeps) (sessions : List (String × SessionData))
    (request_json : Except String MsgRequest) :
    List (String × SessionData) × Option RespPayload :=
  match request_json with
  | .error e => (sessions, some (.errorResp e))
  | .ok req =>
    let sessions1 :=
      if lookupSession req.session_id sessions = none then
        setSession req.session_id ⟨ConversationContext.fresh, req.database⟩ sessions
      else sessions
    let sd := (lookupSession req.session_id sessions1).getD
      ⟨ConversationContext.fresh, req.database⟩
    let sd1 :=
      if optTruthy req.database then
        ⟨{ sd.context with current_database := req.database }, req.database⟩
      else sd
    let sessions2 := setSession req.session_id sd1 sessions1
    if req.message.data.headD ' ' = '/' then
      match handle_command deps req.message sd1 with
      | .error e => (sessions2, some (.errorResp e))
      | .ok (sd2, resp) => (setSession req.session_id sd2 sessions2, resp)
    else
      match deps.translator with
      | none => (sessions2, some (.errorResp "SQL translator not available"))
      | some translate =>
        match translate req.message sd1.context with
        | .error e => (sessions2, some (.errorResp e))
        | .ok sql_query =>
          if sql_query.query = "" then
            (sessions2, some (.textResp
              (if sql_query.explanation = "" then
                "I couldn\x27t translate that to SQL. Could you rephrase?"
              else sql_query.explanation)))
          else
            let result := exec_wrapper deps sql_query
            match result.error with
            | some e =>
              if e ≠ "" then (sessions2, some (.errorResp e))
              else
                (sessions2, some (.sqlResult sql_query.explanation sql_query.query
                  sql_query.database result.rows result.row_count
                  result.execution_time_ms sd1.context.current_database result.formatted))
            | none =>
              (sessions2, some (.sqlResult sql_query.explanation sql_query.query
                sql_query.database result.rows result.row_count
                result.execution_time_ms sd1.context.current_database result.formatted))

/-! ## Concrete fixtures used by the theorems below -/

/-- A configuration whose URL carries no embedded `code=` parameter and
whose function key is set. -/
def authNoEmbed : AuthState :=
  ⟨"https://fn.example.com/api/query", "testkey123", none⟩

/-- An endpoint that answers every probe with HTTP 401. -/
def env401 : PreparedRequest → HttpOutcome :=
  fun _ => .resp 401 true "unauthorized"

/-- An endpoint that rejects the header-credential probe with HTTP 403
and would answer any other probe with a parseable 200. -/
def env403 : PreparedRequest → HttpOutcome :=
  fun pr =>
    if (pr.headers.map Prod.fst).contains "x-functions-key" then .resp 403 true "forbidden"
    else .resp 200 true "dbdata"

/-- An endpoint that answers the header-credential probe with a 200
whose body does not parse as JSON, and any other probe with a parseable
200. -/
def envMalformed : PreparedRequest → HttpOutcome :=
  fun pr =>
    if (pr.headers.map Prod.fst).contains "x-functions-key" then .resp 200 false "notjson"
    else .resp 200 true "dbdata"

/-- An endpoint that rejects the header-credential probe with 401 and
accepts the query-parameter probe with a parseable 200. -/
def envHeaderFails : PreparedRequest → HttpOutcome :=
  fun pr =>
    if (pr.headers.map Prod.fst).contains "x-functions-key" then .resp 401 true "no"
    else if containsChars "code=".data pr.url.data then .resp 200 true "dbdata"
    else .resp 401 true "no"

/-- An endpoint where every probe times out at the transport level. -/
def envExn : PreparedRequest → HttpOutcome :=
  fun _ => .exn "timeout"

/-- A translator that echoes the utterance into the statement and
targets the context's current database, falling back to `NODB` when the
context has none. -/
def trEcho : String → ConversationContext → Except String SQLQuery :=
  fun m ctx => .ok ⟨"TRANSLATED:" ++ m, ctx.current_database.getD "NODB", "marker"⟩

/-- A bot executor that always succeeds with one single-column row. -/
def okExec : SQLQuery → String → Except String ExecResult :=
  fun _ _ => .ok ⟨none, [[("name", "salesdb")]], 1, 5, none⟩

/-- Console collaborators with the echoing translator and the always-ok
executor. -/
def depsEcho : ConsoleDeps :=
  ⟨some trEcho, true, okExec, none, "https://fn.example.com/api", .json 200 (some ["salesdb"])⟩

/-- Console collaborators whose executor raises on every call and whose
metadata endpoint answers HTTP 500. -/
def depsFail : ConsoleDeps :=
  ⟨some trEcho, true, (fun _ _ => .error "connection to SQL endpoint failed"), none,
    "https://fn.example.com/api", .json 500 (some ["salesdb"])⟩

/-- Console collaborators with no translator configured. -/
def depsNoTr : ConsoleDeps :=
  ⟨none, true, okExec, none, "https://fn.example.com/api", .json 200 (some ["salesdb"])⟩

/-- Console collaborators whose executor succeeds with zero rows and
whose metadata endpoint reports a genuinely empty database list. -/
def depsEmpty : ConsoleDeps :=
  ⟨some trEcho, true, (fun _ _ => .ok ⟨none, [], 0, 0, none⟩), none,
    "https://fn.example.com/api", .json 200 (some [])⟩

/-- The prepared header-credential probe for `authNoEmbed`. -/
def prHeader : PreparedRequest :=
  ⟨"https://fn.example.com/api/query",
    [("Content-Type", "application/json"), ("x-functions-key", "testkey123")]⟩

/-! ## Lemmas about the negotiation loop -/

theorem getLast?_cons_of_ne_nil {α : Type} (a : α) {l : List α} (h : l ≠ []) :
    (a :: l).getLast? = l.getLast? := by
  cases l with
  | nil => exact absurd rfl h
  | cons b t => rfl

theorem isPrefix_cons {α : Type} {l₁ l₂ : List α} (a : α) (h : l₁ <+: l₂) :
    a :: l₁ <+: a :: l₂ := by
  rcases h with ⟨t, ht⟩
  exact ⟨t, by simp [ht]⟩

theorem call_loop_cons_unknown (a : AuthState) (env : PreparedRequest → HttpOutcome)
    (m : String) (rest : List String) (le : Option String)
    (hpr : prepare_request a m = none) :
    call_loop a env (m :: rest) le =
      (m :: (call_loop a env rest
          (some ("Error with " ++ m ++ ": Unknown authentication method: " ++ m))).1,
        (call_loop a env rest
          (some ("Error with " ++ m ++ ": Unknown authentication method: " ++ m))).2) := by
  simp [call_loop, hpr]

theorem call_loop_cons_exn (a : AuthState) (env : PreparedRequest → HttpOutcome)
    (m : String) (rest : List String) (le : Option String) (pr : PreparedRequest)
    (msg : String) (hpr : prepare_request a m = some pr) (henv : env pr = .exn msg) :
    call_loop a env (m :: rest) le =
      (m :: (call_loop a env rest (some ("Error with " ++ m ++ ": " ++ msg))).1,
        (call_loop a env rest (some ("Error with " ++ m ++ ": " ++ msg))).2) := by
  simp [call_loop, hpr, henv]

theorem call_loop_cons_ok (a : AuthState) (env : PreparedRequest → HttpOutcome)
    (m : String) (rest : List String) (le : Option String) (pr : PreparedRequest)
    (body : String) (hpr : prepare_request a m = some pr)
    (henv : env pr = .resp 200 true body) :
    call_loop a env (m :: rest) le = ([m], .ok m body pr.url) := by
  simp [call_loop, hpr, henv]

theorem call_loop_cons_malformed (a : AuthState) (env : PreparedRequest → HttpOutcome)
    (m : String) (rest : List String) (le : Option String) (pr : PreparedRequest)
    (body : String) (hpr : prepare_request a m = some pr)
    (henv : env pr = .resp 200 false body) :
    call_loop a env (m :: rest) le =
      (m :: (call_loop a env rest (some ("Error with " ++ m ++ ": malformed JSON body"))).1,
        (call_loop a env rest (some ("Error with " ++ m ++ ": malformed JSON body"))).2) := by
  simp [call_loop, hpr, henv]

theorem call_loop_cons_401 (a : AuthState) (env : PreparedRequest → HttpOutcome)
    (m : String) (rest : List String) (le : Option String) (pr : PreparedRequest)
    (jsonOk : Bool) (body : String) (hpr : prepare_request a m = some pr)
    (henv : env pr = .resp 401 jsonOk body) :
    call_loop a env (m :: rest) le =
      (m :: (call_loop a env rest
          (some ("Authentication failed with " ++ m ++ ": " ++ strTake body 100))).1,
        (call_loop a env rest
          (some ("Authentication failed with " ++ m ++ ": " ++ strTake body 100))).2) := by
  simp [call_loop, hpr, henv]

theorem call_loop_cons_hard (a : AuthState) (env : PreparedRequest → HttpOutcome)
    (m : String) (rest : List String) (le : Option String) (pr : PreparedRequest)
    (status : Nat) (jsonOk : Bool) (body : String) (hpr : prepare_request a m = some pr)
    (henv : env pr = .resp status jsonOk body) (h200 : status ≠ 200) (h401 : status ≠ 401) :
    call_loop a env (m :: rest) le = ([m], .hardFail m status body) := by
  simp [call_loop, hpr, henv, h200, h401]

theorem call_loop_trace_le_irrel (a : AuthState) (env : PreparedRequest → HttpOutcome) :
    ∀ (ms : List String) (le le' : Option String),
      (call_loop a env ms le).1 = (call_loop a env ms le').1 := by
  intro ms le le'
  cases ms with
  | nil => rfl
  | cons m rest => rfl

theorem call_loop_ok_le_irrel (a : AuthState) (env : PreparedRequest → HttpOutcome) :
    ∀ (ms : List String) (le le' : Option String) (m : String) (d u : String),
      (call_loop a env ms le).2 = .ok m d u → (call_loop a env ms le').2 = .ok m d u := by
  intro ms le le' m d u h
  cases ms with
  | nil => simp [call_loop] at h
  | cons m0 rest => exact h

theorem call_loop_cases (a : AuthState) (env : PreparedRequest → HttpOutcome)
    (m : String) (rest : List String) (le : Option String) :
    (∃ pr body, prepare_request a m = some pr ∧ env pr = .resp 200 true body ∧
      call_loop a env (m :: rest) le = ([m], .ok m body pr.url)) ∨
    (∃ pr status jsonOk body, prepare_request a m = some pr ∧
      env pr = .resp status jsonOk body ∧ status ≠ 200 ∧ status ≠ 401 ∧
      call_loop a env (m :: rest) le = ([m], .hardFail m status body)) ∨
    (successProbe a env m = false ∧
      call_loop a env (m :: rest) le =
        (m :: (call_loop a env rest (failMsg a env m)).1,
          (call_loop a env rest (failMsg a env m)).2)) := by
  cases hpr : prepare_request a m with
  | none =>
    refine Or.inr (Or.inr ⟨by simp [successProbe, hpr], ?_⟩)
    rw [call_loop_cons_unknown a env m rest le hpr]
    simp [failMsg, hpr]
  | some pr =>
    cases henv : env pr with
    | exn msg =>
      refine Or.inr (Or.inr ⟨by simp [successProbe, hpr, henv], ?_⟩)
      rw [call_loop_cons_exn a env m rest le pr msg hpr henv]
      simp [failMsg, hpr, henv]
    | resp status jsonOk body =>
      by_cases h200 : status = 200
      · subst h200
        cases jsonOk with
        | true =>
          exact Or.inl ⟨pr, body, rfl, henv, call_loop_cons_ok a env m rest le pr body hpr henv⟩
        | false =>
          refine Or.inr (Or.inr ⟨by simp [successProbe, hpr, henv], ?_⟩)
          rw [call_loop_cons_malformed a env m rest le pr body hpr henv]
          simp [failMsg, hpr, henv]
      · by_cases h401 : status = 401
        · subst h401
          refine Or.inr (Or.inr ⟨by simp [successProbe, hpr, henv], ?_⟩)
          rw [call_loop_cons_401 a env m rest le pr jsonOk body hpr henv]
          simp [failMsg, hpr, henv]
        · exact Or.inr (Or.inl ⟨pr, status, jsonOk, body, rfl, henv, h200, h401,
            call_loop_cons_hard a env m rest le pr status jsonOk body hpr henv h200 h401⟩)

theorem call_loop_trace_initial (a : AuthState) (env : PreparedRequest → HttpOutcome) :
    ∀ (ms : List String) (le : Option String), (call_loop a env ms le).1 <+: ms := by
  intro ms
  induction ms with
  | nil => intro le; exact ⟨[], rfl⟩
  | cons m rest ih =>
    intro le
    rcases call_loop_cases a env m rest le with ⟨pr, body, _, _, heq⟩ |
      ⟨pr, s, jb, body, _, _, _, _, heq⟩ | ⟨_, heq⟩
    · rw [heq]; exact ⟨rest, rfl⟩
    · rw [heq]; exact ⟨rest, rfl⟩
    · rw [heq]; exact isPrefix_cons m (ih _)

theorem call_loop_trace_head (a : AuthState) (env : PreparedRequest → HttpOutcome)
    (m : String) (rest : List String) (le : Option String) :
    (call_loop a env (m :: rest) le).1.head? = some m := by
  rcases call_loop_cases a env m rest le with ⟨pr, body, _, _, heq⟩ |
    ⟨pr, s, jb, body, _, _, _, _, heq⟩ | ⟨_, heq⟩ <;> rw [heq] <;> rfl

theorem call_loop_exhausted (a : AuthState) (env : PreparedRequest → HttpOutcome) :
    ∀ (ms : List String) (le le' : Option String),
      (call_loop a env ms le).2 = .exhausted le' →
      (call_loop a env ms le).1 = ms ∧
      ((ms = [] ∧ le' = le) ∨
        ∃ mlast, ms.getLast? = some mlast ∧ le' = failMsg a env mlast) := by
  intro ms
  induction ms with
  | nil =>
    intro le le' h
    simp only [call_loop, LoopOutcome.exhausted.injEq] at h
    exact ⟨rfl, Or.inl ⟨rfl, h.symm⟩⟩
  | cons m rest ih =>
    intro le le' h
    rcases call_loop_cases a env m rest le with ⟨pr, body, _, _, heq⟩ |
      ⟨pr, s, jb, body, _, _, _, _, heq⟩ | ⟨_, heq⟩
    · rw [heq] at h; simp at h
    · rw [heq] at h; simp at h
    · rw [heq] at h ⊢
      simp only at h ⊢
      rcases ih _ le' h with ⟨htr, hcases⟩
      refine ⟨by rw [htr], Or.inr ?_⟩
      rcases hcases with ⟨hrest, hle⟩ | ⟨mlast, hml, hle⟩
      · subst hrest
        exact ⟨m, rfl, hle⟩
      · have hne : rest ≠ [] := by rintro rfl; simp at hml
        exact ⟨mlast, by rw [getLast?_cons_of_ne_nil m hne]; exact hml, hle⟩

theorem call_loop_dropLast_not_success (a : AuthState) (env : PreparedRequest → HttpOutcome) :
    ∀ (ms : List String) (le : Option String) (m' : String),
      m' ∈ (call_loop a env ms le).1.dropLast → successProbe a env m' = false := by
  intro ms
  induction ms with
  | nil => intro le m' h; simp [call_loop] at h
  | cons m rest ih =>
    intro le m' h
    rcases call_loop_cases a env m rest le with ⟨pr, body, _, _, heq⟩ |
      ⟨pr, s, jb, body, _, _, _, _, heq⟩ | ⟨hsp, heq⟩
    · rw [heq] at h; simp at h
    · rw [heq] at h; simp at h
    · rw [heq] at h
      simp only at h
      cases htr : (call_loop a env rest (failMsg a env m)).1 with
      | nil => rw [htr] at h; simp at h
      | cons b t =>
        rw [htr] at h
        rcases List.mem_cons.mp (by simpa [List.dropLast] using h) with hm | hmem
        · rw [hm]; exact hsp
        · exact ih _ m' (by rw [htr]; simpa [List.dropLast] using hmem)

theorem call_loop_ok_getLast (a : AuthState) (env : PreparedRequest → HttpOutcome) :
    ∀ (ms : List String) (le : Option String) (m : String) (d u : String),
      (call_loop a env ms le).2 = .ok m d u →
      (call_loop a env ms le).1.getLast? = some m ∧ successProbe a env m = true := by
  intro ms
  induction ms with
  | nil => intro le m d u h; simp [call_loop] at h
  | cons m0 rest ih =>
    intro le m d u h
    rcases call_loop_cases a env m0 rest le with ⟨pr, body, hpr, henv, heq⟩ |
      ⟨pr, s, jb, body, _, _, _, _, heq⟩ | ⟨hsp, heq⟩
    · rw [heq] at h ⊢
      simp only [LoopOutcome.ok.injEq] at h
      rcases h with ⟨hm, _, _⟩
      subst hm
      exact ⟨rfl, by simp [successProbe, hpr, henv]⟩
    · rw [heq] at h; simp at h
    · rw [heq] at h ⊢
      simp only at h ⊢
      rcases ih _ m d u h with ⟨hlast, hsp2⟩
      have hne : (call_loop a env rest (failMsg a env m0)).1 ≠ [] := by
        intro hnil
        rw [hnil] at hlast
        simp at hlast
      exact ⟨by rw [getLast?_cons_of_ne_nil m0 hne]; exact hlast, hsp2⟩

theorem filter_length_le_one {α : Type} (p : α → Bool) :
    ∀ l : List α, (∀ x ∈ l.dropLast, p x = false) → (l.filter p).length ≤ 1 := by
  intro l
  induction l with
  | nil => intro _; simp
  | cons a t ih =>
    intro h
    cases t with
    | nil => cases hpa : p a <;> simp [List.filter, hpa]
    | cons b t2 =>
      have hpa : p a = false := h a (by simp [List.dropLast])
      have h2 : ∀ x ∈ (b :: t2).dropLast, p x = false := by
        intro x hx
        exact h x (by simpa [List.dropLast] using Or.inr hx)
      simpa [List.filter, hpa] using ih h2

theorem prepare_request_auth_irrel (u k : String) (am am' : Option String) :
    prepare_request ⟨u, k, am⟩ = prepare_request ⟨u, k, am'⟩ := rfl

theorem call_loop_auth_irrel (u k : String) (am am' : Option String)
    (env : PreparedRequest → HttpOutcome) :
    ∀ (ms : List String) (le : Option String),
      call_loop ⟨u, k, am⟩ env ms le = call_loop ⟨u, k, am'⟩ env ms le := by
  intro ms
  induction ms with
  | nil => intro le; rfl
  | cons m rest ih =>
    intro le
    cases hpr : prepare_request ⟨u, k, am'⟩ m with
    | none =>
      rw [call_loop_cons_unknown _ env m rest le
          (by rw [prepare_request_auth_irrel u k am am']; exact hpr),
        call_loop_cons_unknown _ env m rest le hpr, ih]
    | some pr =>
      cases henv : env pr with
      | exn msg =>
        rw [call_loop_cons_exn _ env m rest le pr msg
            (by rw [prepare_request_auth_irrel u k am am']; exact hpr) henv,
          call_loop_cons_exn _ env m rest le pr msg hpr henv, ih]
      | resp status jsonOk body =>
        by_cases h200 : status = 200
        · subst h200
          cases jsonOk with
          | true =>
            rw [call_loop_cons_ok _ env m rest le pr body
                (by rw [prepare_request_auth_irrel u k am am']; exact hpr) henv,
              call_loop_cons_ok _ env m rest le pr body hpr henv]
          | false =>
            rw [call_loop_cons_malformed _ env m rest le pr body
                (by rw [prepare_request_auth_irrel u k am am']; exact hpr) henv,
              call_loop_cons_malformed _ env m rest le pr body hpr henv, ih]
        · by_cases h401 : status = 401
          · subst h401
            rw [call_loop_cons_401 _ env m rest le pr jsonOk body
                (by rw [prepare_request_auth_irrel u k am am']; exact hpr) henv,
              call_loop_cons_401 _ env m rest le pr jsonOk body hpr henv, ih]
          · rw [call_loop_cons_hard _ env m rest le pr status jsonOk body
                (by rw [prepare_request_auth_irrel u k am am']; exact hpr) henv h200 h401,
              call_loop_cons_hard _ env m rest le pr status jsonOk body hpr henv h200 h401]

theorem call_function_trace (a : AuthState) (env : PreparedRequest → HttpOutcome)
    (h : a.function_url ≠ "") :
    (call_function a env).2.1 = (call_loop a env (get_auth_methods a) none).1 := by
  unfold call_function
  rw [if_neg h]
  rcases hout : call_loop a env (get_auth_methods a) none with ⟨trace, out⟩
  cases out <;> simp [hout]

theorem get_auth_methods_getLast (a : AuthState) :
    (get_auth_methods a).getLast? = some "managed_identity" := by
  unfold get_auth_methods
  by_cases h1 : hasEmbeddedCode a.function_url <;>
    by_cases h2 : a.function_key ≠ "" <;> simp [h1, h2]

theorem lookup_setSession (sid : String) (x : SessionData) :
    ∀ ss : List (String × SessionData), lookupSession sid (setSession sid x ss) = some x := by
  intro ss
  induction ss with
  | nil => simp [setSession, lookupSession]
  | cons p rest ih =>
    by_cases h : p.1 = sid
    · simp [setSession, lookupSession, h]
    · simp [setSession, lookupSession, h, ih]

/-! ## Claim C1 -/

/-- Claim C1 counterexample: for the endpoint configuration
`authNoEmbed`, whose URL embeds no credential, negotiation against an
all-401 endpoint probes the header-credential candidate first and the
anonymous candidate (`managed_identity`) last, so the anonymous probe is
not attempted before the credentialed probes as the claim states. -/
theorem c1_counterexample :
    hasEmbeddedCode authNoEmbed.function_url = false ∧
    (call_function authNoEmbed env401).2.1 = ["header_key", "url_key", "managed_identity"] ∧
    (call_function authNoEmbed env401).2.1.head? = some "header_key" ∧
    (call_function authNoEmbed env401).2.1.getLast? = some "managed_identity" := by
  decide

/-- Claim C1 (amended): for any configuration whose URL embeds no
credential and whose function key is set, negotiation probes the header
credential first, then the key as a URL query parameter, and the
anonymous candidate only last: the probe sequence is always a prefix of
`[header_key, url_key, managed_identity]`. -/
theorem c1_amended (a : AuthState) (env : PreparedRequest → HttpOutcome)
    (h1 : hasEmbeddedCode a.function_url = false) (h2 : a.function_key ≠ "")
    (h3 : a.function_url ≠ "") :
    (call_function a env).2.1.head? = some "header_key" ∧
    (call_function a env).2.1 <+: ["header_key", "url_key", "managed_identity"] := by
  have hms : get_auth_methods a = ["header_key", "url_key", "managed_identity"] := by
    simp [get_auth_methods, h1, h2]
  rw [call_function_trace a env h3, hms]
  exact ⟨call_loop_trace_head a env _ _ none, call_loop_trace_initial a env _ none⟩

/-- Claim C1 witness: the amended order statement evaluated at the
concrete configuration `authNoEmbed` against the all-401 endpoint. -/
theorem c1_amended_witness :
    (call_function authNoEmbed env401).2.1.head? = some "header_key" ∧
    (call_function authNoEmbed env401).2.1 <+: ["header_key", "url_key", "managed_identity"] :=
  c1_amended authNoEmbed env401 (by decide) (by decide) (by decide)

/-! ## Claim C2 -/

/-- Claim C2 counterexample: after a first call against
`envHeaderFails` succeeds with `url_key` and stores it in
`auth_method`, a second call probes `header_key` again before
`url_key`, so subsequent calls do not use the cached method directly
and do make additional probe calls of other candidates. -/
theorem c2_counterexample :
    (call_function authNoEmbed envHeaderFails).1.auth_method = some "url_key" ∧
    (call_function authNoEmbed envHeaderFails).2.2 =
      .success "dbdata" "url_key" "https://fn.example.com/api/query?..." ∧
    (call_function (call_function authNoEmbed envHeaderFails).1 envHeaderFails).2.1 =
      ["header_key", "url_key"] := by
  decide

/-- Claim C2 (amended): the stored `auth_method` attribute is never
consulted: the probe trace and the result of `call_function` are
identical for any two states that agree on the URL and the key,
whatever method either one has cached, so every call re-runs the full
candidate loop from the start. -/
theorem c2_amended (url key : String) (am am' : Option String)
    (env : PreparedRequest → HttpOutcome) :
    (call_function ⟨url, key, am⟩ env).2 = (call_function ⟨url, key, am'⟩ env).2 := by
  unfold call_function
  by_cases hu : url = ""
  · simp [hu]
  · simp only [if_neg hu]
    rw [show get_auth_methods ⟨url, key, am⟩ = get_auth_methods ⟨url, key, am'⟩ from rfl,
      call_loop_auth_irrel url key am am' env _ none]
    rcases hout : call_loop ⟨url, key, am'⟩ env (get_auth_methods ⟨url, key, am'⟩) none
      with ⟨tr, out⟩
    cases out <;> simp

/-! ## Claim C3 -/

/-- Claim C3 counterexample: a 403 on the first candidate is a hard
failure that stops negotiation — the second candidate, which would have
answered a parseable 200, is never probed — while a 200 with a
malformed body does not abort the attempt but moves on to the next
candidate, which then succeeds. -/
theorem c3_counterexample :
    (call_function authNoEmbed env403).2.2 = .functionError 403 "forbidden" "header_key" ∧
    (call_function authNoEmbed env403).2.1 = ["header_key"] ∧
    (call_function authNoEmbed envMalformed).2.1 = ["header_key", "url_key"] ∧
    (call_function authNoEmbed envMalformed).2.2 =
      .success "dbdata" "url_key" "https://fn.example.com/api/query?..." := by
  decide

/-- Claim C3 (amended): for every probe response during negotiation, a
200 with a parseable body succeeds at once; a 401 moves on to the next
candidate; a 200 with a malformed body also moves on to the next
candidate (the parse exception is caught); and any other status —
including 403, 404 and 5xx — is a hard failure of the whole attempt
that tries no further candidates. -/
theorem c3_amended (a : AuthState) (env : PreparedRequest → HttpOutcome)
    (m : String) (rest : List String) (le : Option String) (pr : PreparedRequest)
    (hpr : prepare_request a m = some pr) :
    (∀ b, env pr = .resp 200 true b →
      call_loop a env (m :: rest) le = ([m], .ok m b pr.url)) ∧
    (∀ jb b, env pr = .resp 401 jb b →
      (call_loop a env (m :: rest) le).1 = m :: (call_loop a env rest le).1 ∧
      ∀ m' d u, (call_loop a env rest le).2 = .ok m' d u →
        (call_loop a env (m :: rest) le).2 = .ok m' d u) ∧
    (∀ b, env pr = .resp 200 false b →
      (call_loop a env (m :: rest) le).1 = m :: (call_loop a env rest le).1) ∧
    (∀ s jb b, env pr = .resp s jb b → s ≠ 200 → s ≠ 401 →
      call_loop a env (m :: rest) le = ([m], .hardFail m s b)) := by
  refine ⟨?_, ?_, ?_, ?_⟩
  · intro b henv
    exact call_loop_cons_ok a env m rest le pr b hpr henv
  · intro jb b henv
    rw [call_loop_cons_401 a env m rest le pr jb b hpr henv]
    constructor
    · rw [call_loop_trace_le_irrel a env rest _ le]
    · intro m' d u h
      exact call_loop_ok_le_irrel a env rest le _ m' d u h
  · intro b henv
    rw [call_loop_cons_malformed a env m rest le pr b hpr henv]
    rw [call_loop_trace_le_irrel a env rest _ le]
  · intro s jb b henv h200 h401
    exact call_loop_cons_hard a env m rest le pr s jb b hpr henv h200 h401

/-- Claim C3 witness: the amended per-status behavior evaluated at the
concrete header-credential probe of `authNoEmbed`: a 401 continues with
the next candidate, and a 403 stops with the hard-failure outcome. -/
theorem c3_amended_witness :
    (call_loop authNoEmbed env401 ["header_key", "url_key"] none).1 =
      "header_key" :: (call_loop authNoEmbed env401 ["url_key"] none).1 ∧
    call_loop authNoEmbed env403 ["header_key", "url_key"] none =
      (["header_key"], .hardFail "header_key" 403 "forbidden") := by
  constructor
  · exact ((c3_amended authNoEmbed env401 "header_key" ["url_key"] none prHeader
      (by decide)).2.1 true "unauthorized" (by decide)).1
  · exact (c3_amended authNoEmbed env403 "header_key" ["url_key"] none prHeader
      (by decide)).2.2.2 403 true "forbidden" (by decide) (by decide) (by decide)

/-! ## Claim C4 -/

/-- Claim C4 counterexample: after `url_key` has been cached by a
successful call, a later call in an environment where every candidate
(including the cached one) answers 401 does not start from the cached
method (its first probe is `header_key`), does not invalidate the cache
(`auth_method` is still `url_key` afterwards), and surfaces the
aggregate all-methods-failed dictionary rather than a dedicated
auth-failure after one re-negotiation. -/
theorem c4_counterexample :
    (call_function authNoEmbed envHeaderFails).1.auth_method = some "url_key" ∧
    (call_function (call_function authNoEmbed envHeaderFails).1 env401).2.1.head? =
      some "header_key" ∧
    (call_function (call_function authNoEmbed envHeaderFails).1 env401).1.auth_method =
      some "url_key" ∧
    (call_function (call_function authNoEmbed envHeaderFails).1 env401).2.2 =
      .allFailed ["header_key", "url_key", "managed_identity"]
        (some "Authentication failed with managed_identity: unauthorized") := by
  decide

/-- Claim C4 (amended): there is no cached-method fast path: a call
never consults the stored method, updates it only when some candidate
succeeds, and on any failing outcome leaves the state — including the
previously stored method — completely unchanged, surfacing the
aggregate error of the freshly re-run candidate loop. -/
theorem c4_amended (a : AuthState) (env : PreparedRequest → HttpOutcome) :
    (∀ tried le, (call_function a env).2.2 = .allFailed tried le →
      (call_function a env).1 = a) ∧
    (∀ s b m, (call_function a env).2.2 = .functionError s b m →
      (call_function a env).1 = a) ∧
    (∀ d m u, (call_function a env).2.2 = .success d m u →
      (call_function a env).1 = { a with auth_method := some m }) := by
  unfold call_function
  by_cases hu : a.function_url = ""
  · simp [hu]
  · simp only [if_neg hu]
    rcases hout : call_loop a env (get_auth_methods a) none with ⟨tr, out⟩
    cases out <;> simp

/-- Claim C4 witness: the amended statement evaluated at `authNoEmbed`
against the all-401 endpoint: the failing call leaves the state
unchanged. -/
theorem c4_amended_witness :
    (call_function authNoEmbed env401).1 = authNoEmbed :=
  (c4_amended authNoEmbed env401).1 ["header_key", "url_key", "managed_identity"]
    (some "Authentication failed with managed_identity: unauthorized") (by decide)

/-! ## Claim C5 -/

/-- Claim C5: for every candidate ordering, at most one probe of a
negotiation is answered with a parseable 200, and when the loop
succeeds the succeeding candidate is the last one probed — the probe
trace is a prefix of the candidate list ending at the winner, every
earlier probed candidate having failed — so no candidate after the
first success is ever probed. -/
theorem c5_theorem (a : AuthState) (env : PreparedRequest → HttpOutcome)
    (ms : List String) (le : Option String) :
    ((call_loop a env ms le).1.filter (fun m => successProbe a env m)).length ≤ 1 ∧
    (∀ m d u, (call_loop a env ms le).2 = .ok m d u →
      (call_loop a env ms le).1 <+: ms ∧
      (call_loop a env ms le).1.getLast? = some m ∧
      ∀ m' ∈ (call_loop a env ms le).1.dropLast, successProbe a env m' = false) := by
  refine ⟨?_, ?_⟩
  · exact filter_length_le_one _ _ (fun x hx => call_loop_dropLast_not_success a env ms le x hx)
  · intro m d u h
    exact ⟨call_loop_trace_initial a env ms le,
      (call_loop_ok_getLast a env ms le m d u h).1,
      fun m' hm' => call_loop_dropLast_not_success a env ms le m' hm'⟩

/-- Claim C5 witness: the stop-at-first-success statement evaluated at
the concrete candidate list of `authNoEmbed` against `envHeaderFails`,
where the second candidate wins and the third is never probed. -/
theorem c5_theorem_witness :
    ((call_loop authNoEmbed envHeaderFails ["header_key", "url_key", "managed_identity"]
        none).1.filter (fun m => successProbe authNoEmbed envHeaderFails m)).length ≤ 1 ∧
    ((call_loop authNoEmbed envHeaderFails ["header_key", "url_key", "managed_identity"]
        none).1 <+: ["header_key", "url_key", "managed_identity"] ∧
      (call_loop authNoEmbed envHeaderFails ["header_key", "url_key", "managed_identity"]
        none).1.getLast? = some "url_key" ∧
      ∀ m' ∈ (call_loop authNoEmbed envHeaderFails ["header_key", "url_key", "managed_identity"]
        none).1.dropLast, successProbe authNoEmbed envHeaderFails m' = false) := by
  have h := c5_theorem authNoEmbed envHeaderFails ["header_key", "url_key", "managed_identity"] none
  exact ⟨h.1, h.2 "url_key" "dbdata" "https://fn.example.com/api/query?code=testkey123" (by decide)⟩

/-! ## Claim C10 -/

/-- Claim C10: a transport-level exception on a probe does not abort
negotiation — the loop continues with the next candidate — and when
every candidate has failed, `call_function` returns the aggregate
failure whose `tried_methods` is the full candidate list (all of which
were probed) and whose `last_error` is the failure message of the last
candidate alone. -/
theorem c10_theorem (a : AuthState) (env : PreparedRequest → HttpOutcome)
    (hurl : a.function_url ≠ "") :
    (∀ m rest le pr msg, prepare_request a m = some pr → env pr = .exn msg →
      (call_loop a env (m :: rest) le).1 = m :: (call_loop a env rest le).1) ∧
    (∀ tried le, (call_function a env).2.2 = .allFailed tried le →
      tried = get_auth_methods a ∧
      (call_function a env).2.1 = get_auth_methods a ∧
      le = failMsg a env "managed_identity") := by
  constructor
  · intro m rest le pr msg hpr henv
    rw [call_loop_cons_exn a env m rest le pr msg hpr henv]
    rw [call_loop_trace_le_irrel a env rest _ le]
  · intro tried le h
    have hms := get_auth_methods_getLast a
    unfold call_function at h
    rw [if_neg hurl] at h
    rcases hout : call_loop a env (get_auth_methods a) none with ⟨tr, out⟩
    simp only [hout] at h
    cases out with
    | ok m d u => simp at h
    | hardFail m s b => simp at h
    | exhausted le0 =>
      simp only [CallResult.allFailed.injEq] at h
      rcases h with ⟨htried, hle⟩
      rcases call_loop_exhausted a env (get_auth_methods a) none le0 (by rw [hout]) with
        ⟨htr, hc⟩
      refine ⟨htried.symm, ?_, ?_⟩
      · rw [call_function_trace a env hurl]
        exact htr
      · rcases hc with ⟨hnil, _⟩ | ⟨mlast, hml, hle0⟩
        · rw [hnil] at hms
          simp at hms
        · rw [hml] at hms
          rw [← hle, hle0, Option.some_inj.mp hms]

/-- Claim C10 witness: the statement evaluated against the endpoint
where every probe times out: the first exception does not stop the
loop, all candidates are probed, and the aggregate failure records the
timeout message of the last candidate only. -/
theorem c10_theorem_witness :
    (call_loop authNoEmbed envExn ["header_key", "url_key"] none).1 =
      "header_key" :: (call_loop authNoEmbed envExn ["url_key"] none).1 ∧
    (call_function authNoEmbed envExn).2.1 = get_auth_methods authNoEmbed ∧
    some "Error with managed_identity: timeout" = failMsg authNoEmbed envExn "managed_identity" := by
  have h := c10_theorem authNoEmbed envExn (by decide)
  have h2 := h.2 ["header_key", "url_key", "managed_identity"]
    (some "Error with managed_identity: timeout") (by decide)
  exact ⟨h.1 "header_key" ["url_key"] none prHeader "timeout" (by decide) (by decide),
    h2.2.1, h2.2.2⟩

/-! ## Claim C6 -/

/-- Claim C6 (code bug): the facade does not return a response for
every message — the `/database` branch of `_handle_command` has no arm
for a missing or unrecognized subcommand, falls through, and returns
`None`, so `handle_message` itself returns no response for the messages
`/database` and `/database set`. -/
theorem c6_code_bug :
    (handle_message depsEcho [] (.ok ⟨"/database", none, "s1"⟩)).2 = none ∧
    (handle_message depsEcho [] (.ok ⟨"/database set", none, "s1"⟩)).2 = none := by
  decide

/-! ## Claim C7 -/

/-- Claim C7 counterexample: the message `show databases` is not
classified as the database-list command: with the marker translator it
produces a `sql_result` payload whose statement echoes the utterance —
proof it was sent to the translator — instead of the text payload that
`/database list` produces from the metadata request. -/
theorem c7_counterexample :
    (handle_message depsEcho [] (.ok ⟨"show databases", none, "s1"⟩)).2 =
      some (.sqlResult "marker" "TRANSLATED:show databases" "NODB"
        [[("name", "salesdb")]] 1 5 none none) ∧
    (handle_message depsEcho [] (.ok ⟨"/database list", none, "s1"⟩)).2 =
      some (.textResp "Available Databases (2):\n• master\n• salesdb\n") := by
  decide

/-- Claim C7 (amended): no meta-phrase classification exists: every
message that does not start with `/` — including `show databases` and
`databases` — takes the natural-language translator path, reaching the
translator-availability gate rather than any command handler. -/
theorem c7_amended (deps : ConsoleDeps) (sessions : List (String × SessionData))
    (msg : String) (db : Option String) (sid : String)
    (hmsg : msg.data.headD ' ' ≠ '/') (htr : deps.translator = none) :
    (handle_message deps sessions (.ok ⟨msg, db, sid⟩)).2 =
      some (.errorResp "SQL translator not available") := by
  have hmsg2 : ¬(msg.data.head?.getD ' ' = '/') := by simpa using hmsg
  simp [handle_message, hmsg2, htr]

/-- Claim C7 witness: the amended routing statement evaluated at the
message `show databases` with no translator configured. -/
theorem c7_amended_witness :
    (handle_message depsNoTr [] (.ok ⟨"show databases", none, "s1"⟩)).2 =
      some (.errorResp "SQL translator not available") :=
  c7_amended depsNoTr [] "show databases" none "s1" (by decide) rfl

/-! ## Claim C8 -/

/-- Claim C8 counterexample: after `/database set sales` and `/clear`
on session `s1`, the session-level `current_database` is still `sales`,
but the context handed to the translator has its current database
reset, so the next query is translated against no current database and
targets the translator fallback `NODB` instead of `sales`. -/
theorem c8_counterexample :
    (let s1 := (handle_message depsEcho [] (.ok ⟨"/database set sales", none, "s1"⟩)).1
     let s2 := (handle_message depsEcho s1 (.ok ⟨"/clear", none, "s1"⟩)).1
     (lookupSession "s1" s2).map SessionData.current_database = some (some "sales") ∧
     (lookupSession "s1" s2).map (fun sd => sd.context.current_database) = some none ∧
     (handle_message depsEcho s2 (.ok ⟨"top sales this year", none, "s1"⟩)).2 =
       some (.sqlResult "marker" "TRANSLATED:top sales this year" "NODB"
         [[("name", "salesdb")]] 1 5 none none)) := by
  decide

/-- Claim C8 (amended): `/clear` replaces the session's context with a
fresh one whose current database is unset while preserving the
session-level `current_database` entry: the session afterwards holds
exactly the fresh context paired with the old database selection, so a
translated query immediately after `/clear` no longer sees the
previously selected database even though `/tables` still does. -/
theorem c8_amended (deps : ConsoleDeps) (sessions : List (String × SessionData))
    (sid : String) (sd : SessionData) (h : lookupSession sid sessions = some sd) :
    lookupSession sid (handle_message deps sessions (.ok ⟨"/clear", none, sid⟩)).1 =
      some ⟨ConversationContext.fresh, sd.current_database⟩ ∧
    (handle_message deps sessions (.ok ⟨"/clear", none, sid⟩)).2 =
      some (.textResp "Conversation history cleared.") := by
  have hcmd : handle_command deps "/clear" sd =
      .ok (⟨ConversationContext.fresh, sd.current_database⟩,
        some (.textResp "Conversation history cleared.")) := rfl
  have hred : handle_message deps sessions (.ok ⟨"/clear", none, sid⟩) =
      (setSession sid ⟨ConversationContext.fresh, sd.current_database⟩
          (setSession sid sd sessions),
        some (.textResp "Conversation history cleared.")) := by
    simp [handle_message, h, optTruthy, hcmd]
  rw [hred]
  exact ⟨lookup_setSession sid _ _, rfl⟩

/-- Claim C8 witness: the amended statement evaluated at a concrete
store whose session `s1` has `sales` selected both in the context and
at the session level. -/
theorem c8_amended_witness :
    lookupSession "s1" (handle_message depsEcho
        [("s1", ⟨⟨[], some "sales"⟩, some "sales"⟩)] (.ok ⟨"/clear", none, "s1"⟩)).1 =
      some ⟨ConversationContext.fresh, some "sales"⟩ ∧
    (handle_message depsEcho [("s1", ⟨⟨[], some "sales"⟩, some "sales"⟩)]
        (.ok ⟨"/clear", none, "s1"⟩)).2 =
      some (.textResp "Conversation history cleared.") :=
  c8_amended depsEcho [("s1", ⟨⟨[], some "sales"⟩, some "sales"⟩)] "s1"
    ⟨⟨[], some "sales"⟩, some "sales"⟩ (by decide)

/-! ## Claim C9 -/

/-- Claim C9 counterexample: when the executor raises and the metadata
endpoint answers HTTP 500, `/database list` returns the success-shaped
text payload `Available Databases (0)` — byte-identical to the payload
produced when every collaborator succeeds with a genuinely empty
database list — so the failure is silently swallowed into a
successful-looking empty result. -/
theorem c9_counterexample :
    (handle_message depsFail [] (.ok ⟨"/database list", none, "s1"⟩)).2 =
      some (.textResp "Available Databases (0):\n") ∧
    (handle_message depsFail [] (.ok ⟨"/database list", none, "s1"⟩)).2 =
      (handle_message depsEmpty [] (.ok ⟨"/database list", none, "s1"⟩)).2 := by
  decide

/-- Claim C9 (amended): failures of the remote metadata and
table-listing calls are swallowed into empty results rather than
surfaced: `_get_databases` and `_get_tables` return `[]` whenever the
executor raises, and `_call_function_metadata` returns the empty
`databases` dictionary on any non-200 status and on any transport
exception, indistinguishable from an empty success. -/
theorem c9_amended (deps : ConsoleDeps) :
    (∀ e, deps.bot_execute metadata_query "raw" = .error e → get_databases deps = []) ∧
    (∀ db e, deps.bot_execute (schema_query db) "raw" = .error e → get_tables deps db = []) ∧
    (∀ url s dbs, s ≠ 200 → call_function_metadata url (.json s dbs) = some []) ∧
    (∀ url m, call_function_metadata url (.exn m) = some []) := by
  refine ⟨?_, ?_, ?_, ?_⟩
  · intro e he
    unfold get_databases
    by_cases hb : deps.bot = false
    · simp [hb]
    · simp [hb, he]
  · intro db e he
    unfold get_tables
    by_cases hb : deps.bot = false
    · simp [hb]
    · simp [hb, he]
  · intro url s dbs hs
    unfold call_function_metadata
    by_cases hu : url = "" <;> simp [hu, hs]
  · intro url m
    unfold call_function_metadata
    by_cases hu : url = "" <;> simp [hu]

/-- Claim C9 witness: the amended statement evaluated at the failing
collaborators `depsFail`: the raising executor yields empty database
and table listings, and the 500 and transport-failure metadata calls
yield the empty dictionary. -/
theorem c9_amended_witness :
    get_databases depsFail = [] ∧
    get_tables depsFail "sales" = [] ∧
    call_function_metadata "https://fn.example.com/api" (.json 500 (some ["salesdb"])) =
      some [] ∧
    call_function_metadata "https://fn.example.com/api" (.exn "connection refused") =
      some [] := by
  have h := c9_amended depsFail
  exact ⟨h.1 "connection to SQL endpoint failed" rfl,
    h.2.1 "sales" "connection to SQL endpoint failed" rfl,
    h.2.2.1 "https://fn.example.com/api" 500 (some ["salesdb"]) (by decide),
    h.2.2.2 "https://fn.example.com/api" "connection refused"⟩

end AzureBot
